import Mathlib

/-!
Verification development for the payment/order/subscription core of the
server-donation-tool repository.

The TypeScript domain entities (src/unnamed/part_000: domain/payment.ts) and
the Subscriptions orchestrator (src/service/subscriptions.ts) are shallowly
embedded as pure Lean functions.  Side effects are made explicit:

* the persistence stores (orders, subscriptions, subscription plans) are
  lists threaded through every service operation as a `SubsState`;
* nondeterministic inputs of the source (`v4()` uuids, `new Date()`) are
  passed as explicit arguments;
* external collaborators (the payment gateway, the redeem engine) are passed
  as explicit outcome arguments and every invocation of them is recorded in
  the state, so that "the gateway was (not) contacted" is a provable fact;
* thrown JavaScript exceptions become an `Err` value; a JavaScript
  `TypeError` caused by dereferencing `undefined` is modelled as
  `Err.typeError`.
-/

/-- Errors thrown by the embedded core.  `subscriptionNotFound` and
`subscriptionNotPending` are the error classes of domain/payment.ts;
`invalidState` models the plain `Error(...)` throws of `Order.paymentIntent`
and `Order.pay` (the spec groups these as the InvalidState kind);
`planNotFound` is the plan-resolution failure the spec names `PlanNotFound`;
`typeError` models a JavaScript TypeError raised by reading a property of
`undefined`. -/
inductive Err where
  | subscriptionNotFound
  | subscriptionNotPending
  | planNotFound
  | invalidState (msg : String)
  | typeError (msg : String)
  | gatewayFailure
deriving DecidableEq, Repr

/-- Modelled from the spec: Package (domain/package.ts is not in src/).  A
purchasable bundle of perks; the embedded core reads only its identity (the
`id` used by `Reference.asString` and plan resolution) and its display
name. -/
structure Package where
  id : String
  name : String
deriving DecidableEq, Repr

/-- Modelled from the spec: User (domain/user.ts is not in src/).  The core
reads `user.steam.id` and `user.discord.id` only. -/
structure UserAccount where
  id : String
deriving DecidableEq, Repr

structure User where
  steam : UserAccount
  discord : UserAccount
deriving DecidableEq, Repr

/-- Modelled from the spec: RedeemTarget (domain/package.ts is not in src/);
constructed in subscriptions.ts line 50 as
`new RedeemTarget(sub.user.steamId, sub.user.discordId)`. -/
structure RedeemTarget where
  steamId : String
  discordId : String
deriving DecidableEq, Repr

/-- Reference (domain/payment.ts lines 720-727).  `steamId` is
`string | null` in the source, hence `Option String` here. -/
structure Reference where
  steamId : Option String
  discordId : String
  p : Package
deriving DecidableEq, Repr

/-- `Reference.asString` (domain/payment.ts lines 724-726):
the template string `${this.steamId || this.discordId}#${this.p.id}`.
JavaScript `||` falls back to `discordId` when `steamId` is falsy, i.e.
`null` or the empty string. -/
def Reference.asString (r : Reference) : String :=
  (match r.steamId with
   | some s => if s = "" then r.discordId else s
   | none => r.discordId) ++ "#" ++ r.p.id

inductive OrderStatus where
  | CREATED
  | PAID
deriving DecidableEq, Repr

/-- OrderPayment (domain/payment.ts lines 745-749).  `id` is declared
`string` in TS, but `Subscription.pay` copies `this.payment.id`, which may be
`undefined`, and the orchestrator omits the (required) `provider` field, so
all three fields are embedded as `Option String`. -/
structure OrderPayment where
  id : Option String
  transactionId : Option String
  provider : Option String
deriving DecidableEq, Repr

/-- Order (domain/payment.ts lines 751-789).  Timestamps are modelled as
`Nat`. -/
structure Order where
  id : String
  created : Nat
  reference : Reference
  customMessage : Option String
  redeemedAt : Option Nat
  status : OrderStatus
  payment : Option OrderPayment
deriving DecidableEq, Repr

/-- `Order.create` (lines 763-765).  The source draws the order id from
`v4()`; the fresh id is passed explicitly as `newId`. -/
def Order.create (newId : String) (created : Nat) (payment : OrderPayment)
    (reference : Reference) (customMessage : Option String) : Order :=
  ⟨newId, created, reference, customMessage, none, OrderStatus.CREATED, some payment⟩

/-- `Order.createDeferred` (lines 767-769): like `create` but with a null
payment. -/
def Order.createDeferred (newId : String) (created : Nat)
    (reference : Reference) (customMessage : Option String) : Order :=
  ⟨newId, created, reference, customMessage, none, OrderStatus.CREATED, none⟩

/-- `Order.paymentIntent` (lines 771-776): throws when a payment is already
bound, else binds it. -/
def Order.paymentIntent (o : Order) (payment : OrderPayment) : Except Err Order :=
  match o.payment with
  | some _ => .error (Err.invalidState "can not intent to pay an order with an active payment intent")
  | none => .ok { o with payment := some payment }

/-- `Order.pay` (lines 778-784): throws when no payment is bound, else stamps
the transaction id on the payment and flips the status to PAID.  Nothing else
(in particular `redeemedAt`) is touched. -/
def Order.pay (o : Order) (transactionId : String) : Except Err Order :=
  match o.payment with
  | none => .error (Err.invalidState "paying an order which was not intended to be payed, yet")
  | some pm =>
      .ok { o with payment := some { pm with transactionId := some transactionId },
                   status := OrderStatus.PAID }

structure PlanPayment where
  productId : String
  planId : String
deriving DecidableEq, Repr

/-- SubscriptionPlan (domain/payment.ts lines 791-805). -/
structure SubscriptionPlan where
  id : String
  basePackage : Package
  payment : PlanPayment
deriving DecidableEq, Repr

/-- `SubscriptionPlan.create` (lines 802-804); the `v4()` id is passed as
`newId`. -/
def SubscriptionPlan.create (newId : String) (basePackage : Package)
    (productId planId : String) : SubscriptionPlan :=
  ⟨newId, basePackage, ⟨productId, planId⟩⟩

structure SubPayment where
  id : Option String
deriving DecidableEq, Repr

structure SubUser where
  steamId : String
  discordId : String
deriving DecidableEq, Repr

inductive SubState where
  | PENDING
  | ACTIVE
  | CANCELLED
deriving DecidableEq, Repr

/-- Subscription (domain/payment.ts lines 807-863). -/
structure Subscription where
  id : String
  planId : String
  payment : SubPayment
  user : SubUser
  state : SubState
deriving DecidableEq, Repr

/-- The dynamic value that `Subscription.create` receives as its `user`
parameter.  The declared TS signature is `create(plan, user: User)`, but its
only caller (subscriptions.ts line 33) passes three arguments,
`Subscription.create(plan, result.id, user)`; under JavaScript semantics the
`user` parameter is then bound to the string `result.id` and the third
argument is dropped. -/
inductive JsUserArg where
  | usr (u : User)
  | str (s : String)
deriving DecidableEq, Repr

/-- `Subscription.create` (domain/payment.ts lines 822-827).  The body reads
`user.steam.id` and `user.discord.id`; when the dynamic `user` argument is a
string, `user.steam` is `undefined` and reading `.id` of it throws a
TypeError. -/
def Subscription.create (newId : String) (plan : SubscriptionPlan)
    (user : JsUserArg) : Except Err Subscription :=
  match user with
  | .usr u => .ok ⟨newId, plan.id, ⟨none⟩, ⟨u.steam.id, u.discord.id⟩, SubState.PENDING⟩
  | .str _ => .error (Err.typeError "reading id of undefined")

/-- `Subscription.cancel` (lines 829-831): unconditionally sets the state to
CANCELLED. -/
def Subscription.cancel (s : Subscription) : Subscription :=
  { s with state := SubState.CANCELLED }

/-- `Subscription.agreeBilling` (lines 833-835): records the external billing
agreement id. -/
def Subscription.agreeBilling (s : Subscription) (paymentId : String) : Subscription :=
  { s with payment := ⟨some paymentId⟩ }

/-- `Subscription.pay` (lines 837-847): creates a PAID order for the billing
cycle and unconditionally sets the state to ACTIVE.  The `v4()` order id and
`new Date()` are passed explicitly. -/
def Subscription.pay (s : Subscription) (newOrderId : String) (now : Nat)
    (transactionId provider : String) (p : Package) : Except Err (Subscription × Order) :=
  let order0 := Order.create newOrderId now ⟨s.payment.id, some transactionId, some provider⟩
    (Reference.mk (some s.user.steamId) s.user.discordId p) none
  match Order.pay order0 transactionId with
  | .error e => .error e
  | .ok order => .ok ({ s with state := SubState.ACTIVE }, order)

/-- `Subscription.abortLink` (lines 853-858): only the state guard is
modelled; the URL is rendered as the path string. -/
def Subscription.abortLink (s : Subscription) : Except Err String :=
  if s.state ≠ SubState.PENDING then .error Err.subscriptionNotPending
  else .ok ("/subscriptions/" ++ s.id ++ "/abort")

/-- `Subscription.isActive` (lines 860-862). -/
def Subscription.isActive (s : Subscription) : Bool :=
  s.state = SubState.PENDING ∨ s.state = SubState.ACTIVE

/-- PendingSubscription (domain/payment.ts lines 899-902): the gateway's
answer to `subscribe`. -/
structure PendingSubscription where
  id : String
  approvalLink : String
deriving DecidableEq, Repr

/-- A recorded invocation of the external payment gateway.  The orchestrator
calls `payment.subscribe(plan, user)` and
`payment.cancelSubscription(subscription)`; the arguments it hands over are
recorded so that theorems can speak about whether and with what the gateway
was contacted. -/
inductive GatewayCall where
  | subscribeCall (plan : SubscriptionPlan) (user : User)
  | cancelCall (sub : Subscription)
deriving DecidableEq, Repr

/-- A recorded event emission (`this.events.emit(...)`,
subscriptions.ts line 52). -/
inductive EventRec where
  | successfulSubscriptionExecution (target : RedeemTarget) (order : Order)
deriving DecidableEq, Repr

/-- The observable state threaded through the Subscriptions orchestrator:
the three persistence stores, plus logs of gateway invocations, redeem-engine
invocations and emitted events. -/
structure SubsState where
  plans : List SubscriptionPlan
  subs : List Subscription
  orders : List Order
  gatewayCalls : List GatewayCall
  redeemCalls : List (Order × RedeemTarget)
  events : List EventRec
deriving DecidableEq, Repr

/-- Modelled from the spec: SubscriptionsRepository.find
(domain/repositories.ts is not in src/) — lookup by subscription id,
returning the stored entity or nothing.  That a miss yields a falsy value
rather than a thrown error is pinned down by the service itself, which
null-checks the result (subscriptions.ts line 71). -/
def subsFind (subs : List Subscription) (id : String) : Option Subscription :=
  subs.find? (fun s => s.id = id)

/-- Modelled from the spec: SubscriptionsRepository.findByPayment
(domain/repositories.ts is not in src/) — lookup by the stored billing
agreement (payment) id, returning the stored entity or nothing, with the
same miss behaviour as `subsFind` (same repository interface). -/
def subsFindByPayment (subs : List Subscription) (paymentId : String) : Option Subscription :=
  subs.find? (fun s => s.payment.id = some paymentId)

/-- Modelled from the spec: SubscriptionsRepository.save — an upsert by
subscription id. -/
def saveSub : List Subscription → Subscription → List Subscription
  | [], s => [s]
  | t :: ts, s => if t.id = s.id then s :: ts else t :: saveSub ts s

/-- Modelled from the spec: OrderRepository.save — an upsert by order id. -/
def saveOrder : List Order → Order → List Order
  | [], o => [o]
  | t :: ts, o => if t.id = o.id then o :: ts else t :: saveOrder ts o

/-- Modelled from the spec: OrderRepository.findByPaymentOrder — the order
history for a billing (payment) id. -/
def ordersFindByPaymentOrder (orders : List Order) (paymentId : Option String) : List Order :=
  match paymentId with
  | none => []
  | some i => orders.filter (fun o =>
      match o.payment with
      | some pm => pm.id = some i
      | none => false)

/-- Modelled from the spec: SubscriptionPlanRepository.findByPackage
(domain/repositories.ts is not in src/).  Spec section 4.4: plan resolution
"fails with PlanNotFound if none persisted — plans must be provisioned ahead
of time". -/
def findPlanByPackage (plans : List SubscriptionPlan) (p : Package) : Except Err SubscriptionPlan :=
  match plans.find? (fun pl => pl.basePackage.id = p.id) with
  | some pl => .ok pl
  | none => .error Err.planNotFound

/-- Modelled from the spec: SubscriptionPlanRepository.find — lookup by plan
id, failing with the same PlanNotFound as `findPlanByPackage` (same
repository interface). -/
def findPlanById (plans : List SubscriptionPlan) (id : String) : Except Err SubscriptionPlan :=
  match plans.find? (fun pl => pl.id = id) with
  | some pl => .ok pl
  | none => .error Err.planNotFound

/-- `Subscriptions.subscribe` (subscriptions.ts lines 29-36).
`gw` is the outcome of the external gateway call
`this.payment.subscribe(plan, user)`; the fresh `v4()` subscription id is
passed as `newSubId`.  Line 33 reads
`Subscription.create(plan, result.id, user)`: three arguments to the
two-parameter `Subscription.create`, so the string `result.id` is bound to
the `user` parameter and the `user` object is dropped (see `JsUserArg`). -/
def Subscriptions.subscribe (st : SubsState) (gw : Except Err PendingSubscription)
    (newSubId : String) (p : Package) (user : User) :
    SubsState × Except Err PendingSubscription :=
  match findPlanByPackage st.plans p with
  | .error e => (st, .error e)
  | .ok plan =>
    let st1 := { st with gatewayCalls := st.gatewayCalls ++ [GatewayCall.subscribeCall plan user] }
    match gw with
    | .error e => (st1, .error e)
    | .ok result =>
      match Subscription.create newSubId plan (JsUserArg.str result.id) with
      | .error e => (st1, .error e)
      | .ok sub => ({ st1 with subs := saveSub st1.subs sub }, .ok result)

/-- `Subscriptions.redeemSubscriptionPayment` (subscriptions.ts lines 38-55).
`redeemResult` is the outcome of the external redeem-engine call
`this.redeem.redeem(order, target)` (line 51); the fresh `v4()` order id and
`new Date()` are passed explicitly.  Line 39 stores the result of
`findByPayment` without a null check, so on a miss line 40 reads
`sub.planId` of `undefined` — a TypeError, not a `SubscriptionNotFound`.
The order payment literal (lines 44-47) carries no `provider` field. -/
def Subscriptions.redeemSubscriptionPayment (st : SubsState) (redeemResult : Except Err Unit)
    (newOrderId : String) (now : Nat) (paymentId transactionId : String) :
    SubsState × Except Err Order :=
  match subsFindByPayment st.subs paymentId with
  | none => (st, .error (Err.typeError "reading planId of undefined"))
  | some sub =>
    match findPlanById st.plans sub.planId with
    | .error e => (st, .error e)
    | .ok plan =>
      let sub1 := { sub with state := SubState.ACTIVE }
      let st1 := { st with subs := saveSub st.subs sub1 }
      let order0 := Order.create newOrderId now ⟨some paymentId, some transactionId, none⟩
        (Reference.mk (some sub1.user.steamId) sub1.user.discordId plan.basePackage) none
      match Order.pay order0 transactionId with
      | .error e => (st1, .error e)
      | .ok order =>
        let st2 := { st1 with orders := saveOrder st1.orders order }
        let target := RedeemTarget.mk sub1.user.steamId sub1.user.discordId
        let st3 := { st2 with redeemCalls := st2.redeemCalls ++ [(order, target)] }
        match redeemResult with
        | .error e => (st3, .error e)
        | .ok _ =>
          ({ st3 with events := st3.events ++ [EventRec.successfulSubscriptionExecution target order] },
           .ok order)

/-- The private `Subscriptions.subscription` helper (subscriptions.ts lines
69-75): ownership-checked lookup; a missing subscription and a subscription
owned by a different discord id fail identically with
`SubscriptionNotFound`. -/
def Subscriptions.subscriptionOwned (subs : List Subscription) (id : String)
    (forUser : User) : Except Err Subscription :=
  match subsFind subs id with
  | none => .error Err.subscriptionNotFound
  | some s =>
      if s.user.discordId ≠ forUser.discord.id then .error Err.subscriptionNotFound
      else .ok s

structure ViewSubscription where
  subscription : Subscription
  plan : SubscriptionPlan
  history : List Order
deriving DecidableEq, Repr

/-- `Subscriptions.viewSubscription` (subscriptions.ts lines 57-67). -/
def Subscriptions.viewSubscription (st : SubsState) (id : String) (forUser : User) :
    SubsState × Except Err ViewSubscription :=
  match Subscriptions.subscriptionOwned st.subs id forUser with
  | .error e => (st, .error e)
  | .ok sub =>
    let history := ordersFindByPaymentOrder st.orders sub.payment.id
    match findPlanById st.plans sub.planId with
    | .error e => (st, .error e)
    | .ok plan => (st, .ok ⟨sub, plan, history⟩)

/-- `Subscriptions.cancel` (subscriptions.ts lines 77-82).  `gw` is the
outcome of the external gateway call
`this.payment.cancelSubscription(subscription)` (line 79); when it fails the
exception propagates and lines 80-81 (`subscription.cancel()` and the save)
never run. -/
def Subscriptions.cancel (st : SubsState) (gw : Except Err Unit) (id : String)
    (forUser : User) : SubsState × Except Err Unit :=
  match Subscriptions.subscriptionOwned st.subs id forUser with
  | .error e => (st, .error e)
  | .ok sub =>
    let st1 := { st with gatewayCalls := st.gatewayCalls ++ [GatewayCall.cancelCall sub] }
    match gw with
    | .error e => (st1, .error e)
    | .ok _ => ({ st1 with subs := saveSub st1.subs (Subscription.cancel sub) }, .ok ())

/-- The provider-side responses consumed by
`PaypalPayment.persistSubscription`.  The concrete PayPal HTTP client is an
external protocol (spec section 1); what the embedding keeps is how its
answers flow into the returned SubscriptionPlan: a product fetched or
created under the deterministic catalog id `DONATE-<package id>` is returned
with that id, a plan fetched or updated by id is returned with the same id,
and a freshly created plan gets a provider-chosen id
(`createdPlanId`).  `freshPlanUuid` is the `v4()` drawn by
`SubscriptionPlan.create`. -/
structure PaypalEnv where
  createdPlanId : String
  freshPlanUuid : String
deriving DecidableEq, Repr

/-- `PaypalPayment.asProductId` (src/unnamed/part_000 lines 195-197). -/
def asProductId (p : Package) : String := "DONATE-" ++ p.id

/-- `PaypalPayment.persistSubscription` (src/unnamed/part_000 lines
105-125).  The product is looked up under `asProductId p` and updated, or
created with exactly that id, so `product.result.id = asProductId p` on both
branches.  If the given `sp` carries a truthy (non-empty) provider plan id,
the provider plan is updated in place — `updatePlan` re-fetches the plan
under the same id (lines 238-260) — and a SubscriptionPlan with `sp.id` is
returned; otherwise a provider plan is created and a fresh logical plan is
minted via `SubscriptionPlan.create`. -/
def PaypalPayment.persistSubscription (env : PaypalEnv) (p : Package)
    (sp : Option SubscriptionPlan) : SubscriptionPlan :=
  let productId := asProductId p
  match sp with
  | some s =>
      if s.payment.planId ≠ "" then
        SubscriptionPlan.mk s.id p ⟨productId, s.payment.planId⟩
      else
        SubscriptionPlan.create env.freshPlanUuid p productId env.createdPlanId
  | none => SubscriptionPlan.create env.freshPlanUuid p productId env.createdPlanId

/-! ### Concrete fixtures shared by witnesses and counterexamples -/

def pkgA : Package := ⟨"pkg1", "Starter"⟩

def planA : SubscriptionPlan := ⟨"plan1", pkgA, ⟨"prod1", "pplan1"⟩⟩

def userA : User := ⟨⟨"steam1"⟩, ⟨"disc1"⟩⟩

def userB : User := ⟨⟨"steam2"⟩, ⟨"disc2"⟩⟩

def subA : Subscription := ⟨"sub1", "plan1", ⟨some "AG1"⟩, ⟨"steam1", "disc1"⟩, SubState.PENDING⟩

def stA : SubsState := ⟨[planA], [subA], [], [], [], []⟩

/-! ### Claim theorems -/

/-- C1: for every Subscription stored under payment id `pid` (with its plan
persisted), `redeemSubscriptionPayment pid tx` sets that Subscription's state
to ACTIVE and persists it, creates and persists a new PAID Order whose
payment is `{id: pid, transactionId: tx}` and whose reference is the
subscription user's steam/discord ids with the plan's base package, invokes
the redeem engine exactly once with that Order and the target
`{steamId, discordId}`, and returns that Order. -/
theorem redeem_payment_activates_creates_order_and_redeems
    (st : SubsState) (oid : String) (now : Nat) (pid tx : String)
    (sub : Subscription) (pl : SubscriptionPlan)
    (h1 : subsFindByPayment st.subs pid = some sub)
    (h2 : findPlanById st.plans sub.planId = .ok pl) :
    ∃ order : Order,
      (Subscriptions.redeemSubscriptionPayment st (.ok ()) oid now pid tx).2 = .ok order ∧
      order.payment = some ⟨some pid, some tx, none⟩ ∧
      order.status = OrderStatus.PAID ∧
      order.reference = ⟨some sub.user.steamId, sub.user.discordId, pl.basePackage⟩ ∧
      (Subscriptions.redeemSubscriptionPayment st (.ok ()) oid now pid tx).1.subs
        = saveSub st.subs { sub with state := SubState.ACTIVE } ∧
      (Subscriptions.redeemSubscriptionPayment st (.ok ()) oid now pid tx).1.orders
        = saveOrder st.orders order ∧
      (Subscriptions.redeemSubscriptionPayment st (.ok ()) oid now pid tx).1.redeemCalls
        = st.redeemCalls ++ [(order, ⟨sub.user.steamId, sub.user.discordId⟩)] := by
  refine ⟨Order.mk oid now ⟨some sub.user.steamId, sub.user.discordId, pl.basePackage⟩
    none none OrderStatus.PAID (some ⟨some pid, some tx, none⟩), ?_, rfl, rfl, rfl, ?_, ?_, ?_⟩ <;>
    simp [Subscriptions.redeemSubscriptionPayment, h1, h2, Order.create, Order.pay]

/-- Witness for C1 at a concrete store: the pending subscription `subA`
stored under agreement id AG1 with plan `planA`. -/
theorem redeem_payment_activates_creates_order_and_redeems_witness :
    subsFindByPayment stA.subs "AG1" = some subA ∧
    findPlanById stA.plans subA.planId = .ok planA ∧
    ∃ order : Order,
      (Subscriptions.redeemSubscriptionPayment stA (.ok ()) "order1" 5 "AG1" "TX1").2 = .ok order ∧
      order.payment = some ⟨some "AG1", some "TX1", none⟩ ∧
      order.status = OrderStatus.PAID ∧
      order.reference = ⟨some subA.user.steamId, subA.user.discordId, planA.basePackage⟩ ∧
      (Subscriptions.redeemSubscriptionPayment stA (.ok ()) "order1" 5 "AG1" "TX1").1.subs
        = saveSub stA.subs { subA with state := SubState.ACTIVE } ∧
      (Subscriptions.redeemSubscriptionPayment stA (.ok ()) "order1" 5 "AG1" "TX1").1.orders
        = saveOrder stA.orders order ∧
      (Subscriptions.redeemSubscriptionPayment stA (.ok ()) "order1" 5 "AG1" "TX1").1.redeemCalls
        = stA.redeemCalls ++ [(order, ⟨subA.user.steamId, subA.user.discordId⟩)] :=
  ⟨rfl, rfl,
   redeem_payment_activates_creates_order_and_redeems stA "order1" 5 "AG1" "TX1" subA planA
     rfl rfl⟩

/-- C2 (code evaluated at the failing input): with an empty subscription
store, `redeemSubscriptionPayment "AG1" "TX1"` throws a TypeError from
dereferencing the missing subscription (`sub.planId` of `undefined`) — not
`SubscriptionNotFound` — and leaves the state (in particular the order
store) unchanged. -/
theorem redeem_unknown_payment_type_error_eval :
    Subscriptions.redeemSubscriptionPayment ⟨[planA], [], [], [], [], []⟩ (.ok ())
      "order1" 5 "AG1" "TX1"
      = (⟨[planA], [], [], [], [], []⟩, .error (Err.typeError "reading planId of undefined")) := rfl

/-- C3 (code evaluated at the failing input): with plan `planA` persisted for
`pkgA` and the gateway returning agreement id AG1, `subscribe pkgA userA`
throws a TypeError — `Subscription.create` receives the string "AG1" as its
`user` parameter (three arguments passed to a two-parameter function) and
reading `user.steam.id` fails — so no Subscription is persisted at all, and
in particular none keyed by AG1. -/
theorem subscribe_drops_agreement_id_eval :
    Subscriptions.subscribe ⟨[planA], [], [], [], [], []⟩
      (.ok ⟨"AG1", "https-example-approve"⟩) "sub9" pkgA userA
      = (⟨[planA], [], [], [GatewayCall.subscribeCall planA userA], [], []⟩,
         .error (Err.typeError "reading id of undefined")) ∧
    (Subscriptions.subscribe ⟨[planA], [], [], [], [], []⟩
      (.ok ⟨"AG1", "https-example-approve"⟩) "sub9" pkgA userA).1.subs = [] :=
  ⟨rfl, rfl⟩

def subCancelled : Subscription :=
  ⟨"sub1", "plan1", ⟨some "AG1"⟩, ⟨"steam1", "disc1"⟩, SubState.CANCELLED⟩

def stCancelled : SubsState := ⟨[planA], [subCancelled], [], [], [], []⟩

/-- C4 counterexample: a stored CANCELLED subscription does leave CANCELLED.
`Subscription.pay` returns it with state ACTIVE, and
`redeemSubscriptionPayment` for its payment id persists it as ACTIVE. -/
theorem cancelled_subscription_reactivated_counterexample :
    subCancelled.state = SubState.CANCELLED ∧
    (Subscription.pay subCancelled "order1" 5 "TX1" "paypal" pkgA)
      = .ok ({ subCancelled with state := SubState.ACTIVE },
             Order.mk "order1" 5 ⟨some "steam1", "disc1", pkgA⟩ none none OrderStatus.PAID
               (some ⟨some "AG1", some "TX1", some "paypal"⟩)) ∧
    (Subscriptions.redeemSubscriptionPayment stCancelled (.ok ()) "order1" 5 "AG1" "TX1").1.subs
      = [{ subCancelled with state := SubState.ACTIVE }] :=
  ⟨rfl, rfl, rfl⟩

/-- C4 amended: once CANCELLED, a Subscription stays CANCELLED under `cancel`
and `agreeBilling`; but `Subscription.pay` and `redeemSubscriptionPayment`
(on a subscription still stored under its payment id, with its plan
persisted) unconditionally set the state to ACTIVE, leaving CANCELLED. -/
theorem cancelled_terminal_except_payment_events
    (s : Subscription) (h : s.state = SubState.CANCELLED) (pid : String)
    (nid : String) (now : Nat) (tx prov : String) (p : Package)
    (st : SubsState) (oid : String) (pl : SubscriptionPlan)
    (hfind : subsFindByPayment st.subs pid = some s)
    (hplan : findPlanById st.plans s.planId = .ok pl) :
    (Subscription.cancel s).state = SubState.CANCELLED ∧
    (Subscription.agreeBilling s pid).state = SubState.CANCELLED ∧
    (∃ r, Subscription.pay s nid now tx prov p = .ok r ∧ r.1.state = SubState.ACTIVE) ∧
    (Subscriptions.redeemSubscriptionPayment st (.ok ()) oid now pid tx).1.subs
      = saveSub st.subs { s with state := SubState.ACTIVE } := by
  refine ⟨rfl, ?_, ⟨_, rfl, rfl⟩, ?_⟩
  · simpa [Subscription.agreeBilling] using h
  · simp [Subscriptions.redeemSubscriptionPayment, hfind, hplan, Order.create, Order.pay]

/-- Witness for the amended C4 at the concrete cancelled subscription
`subCancelled`. -/
theorem cancelled_terminal_except_payment_events_witness :
    subCancelled.state = SubState.CANCELLED ∧
    subsFindByPayment stCancelled.subs "AG1" = some subCancelled ∧
    findPlanById stCancelled.plans subCancelled.planId = .ok planA ∧
    ((Subscription.cancel subCancelled).state = SubState.CANCELLED ∧
     (Subscription.agreeBilling subCancelled "AG1").state = SubState.CANCELLED ∧
     (∃ r, Subscription.pay subCancelled "order1" 5 "TX1" "paypal" pkgA = .ok r ∧
        r.1.state = SubState.ACTIVE) ∧
     (Subscriptions.redeemSubscriptionPayment stCancelled (.ok ()) "order1" 5 "AG1" "TX1").1.subs
       = saveSub stCancelled.subs { subCancelled with state := SubState.ACTIVE }) :=
  ⟨rfl, rfl, rfl,
   cancelled_terminal_except_payment_events subCancelled rfl "AG1" "order1" 5 "TX1" "paypal"
     pkgA stCancelled "order1" planA rfl rfl⟩

/-- C5: for a subscription owned by the requesting user, `cancel` invokes the
gateway's cancelSubscription (recording the call) before persisting anything;
when the gateway call fails, the error propagates and the persisted
subscription store is unchanged (the subscription is not CANCELLED); when it
succeeds, the CANCELLED subscription is persisted. -/
theorem cancel_gateway_before_persist
    (st : SubsState) (id : String) (u : User) (sub : Subscription)
    (h : Subscriptions.subscriptionOwned st.subs id u = .ok sub) :
    (∀ e, (Subscriptions.cancel st (.error e) id u).2 = .error e ∧
          (Subscriptions.cancel st (.error e) id u).1.subs = st.subs ∧
          (Subscriptions.cancel st (.error e) id u).1.gatewayCalls
            = st.gatewayCalls ++ [GatewayCall.cancelCall sub]) ∧
    ((Subscriptions.cancel st (.ok ()) id u).1.subs
        = saveSub st.subs (Subscription.cancel sub) ∧
     (Subscriptions.cancel st (.ok ()) id u).1.gatewayCalls
        = st.gatewayCalls ++ [GatewayCall.cancelCall sub] ∧
     (Subscriptions.cancel st (.ok ()) id u).2 = .ok ()) := by
  refine ⟨fun e => ⟨?_, ?_, ?_⟩, ?_, ?_, ?_⟩ <;> simp [Subscriptions.cancel, h]

/-- Witness for C5: the owner `userA` cancels `subA`; the gateway failure
outcome is `gatewayFailure`. -/
theorem cancel_gateway_before_persist_witness :
    Subscriptions.subscriptionOwned stA.subs "sub1" userA = .ok subA ∧
    ((Subscriptions.cancel stA (.error Err.gatewayFailure) "sub1" userA).2
        = .error Err.gatewayFailure ∧
     (Subscriptions.cancel stA (.error Err.gatewayFailure) "sub1" userA).1.subs = stA.subs ∧
     (Subscriptions.cancel stA (.ok ()) "sub1" userA).1.subs
        = saveSub stA.subs (Subscription.cancel subA)) :=
  ⟨rfl,
   ((cancel_gateway_before_persist stA "sub1" userA subA rfl).1 Err.gatewayFailure).1,
   ((cancel_gateway_before_persist stA "sub1" userA subA rfl).1 Err.gatewayFailure).2.1,
   (cancel_gateway_before_persist stA "sub1" userA subA rfl).2.1⟩

/-- C6: when no SubscriptionPlan is persisted for the package, `subscribe`
fails with PlanNotFound and returns the state unchanged: no gateway call is
recorded and no Subscription is persisted. -/
theorem subscribe_plan_not_found
    (st : SubsState) (gw : Except Err PendingSubscription) (nid : String)
    (p : Package) (u : User)
    (h : ∀ pl ∈ st.plans, pl.basePackage.id ≠ p.id) :
    Subscriptions.subscribe st gw nid p u = (st, .error Err.planNotFound) := by
  have hfind : st.plans.find? (fun pl => pl.basePackage.id = p.id) = none := by
    rw [List.find?_eq_none]
    intro pl hpl
    simpa using h pl hpl
  simp [Subscriptions.subscribe, findPlanByPackage, hfind]

/-- Witness for C6: an empty plan store and the package `pkgA`. -/
theorem subscribe_plan_not_found_witness :
    (∀ pl ∈ ([] : List SubscriptionPlan), pl.basePackage.id ≠ pkgA.id) ∧
    Subscriptions.subscribe ⟨[], [subA], [], [], [], []⟩
        (.ok ⟨"AG1", "https-example-approve"⟩) "sub9" pkgA userA
      = (⟨[], [subA], [], [], [], []⟩, .error Err.planNotFound) :=
  ⟨fun pl hpl => absurd hpl (List.not_mem_nil pl),
   subscribe_plan_not_found ⟨[], [subA], [], [], [], []⟩
     (.ok ⟨"AG1", "https-example-approve"⟩) "sub9" pkgA userA
     (fun pl hpl => absurd hpl (List.not_mem_nil pl))⟩

/-- C7: a stored subscription whose owner discord id differs from the
requesting user's fails `viewSubscription` and `cancel` with
`SubscriptionNotFound`, exactly as when no subscription with that id is
stored at all; in all four cases the state is returned unchanged. -/
theorem ownership_mismatch_indistinguishable_from_missing
    (st st2 : SubsState) (sid : String) (u : User) (s : Subscription)
    (gw : Except Err Unit)
    (h1 : subsFind st.subs sid = some s)
    (h2 : s.user.discordId ≠ u.discord.id)
    (h3 : subsFind st2.subs sid = none) :
    Subscriptions.viewSubscription st sid u = (st, .error Err.subscriptionNotFound) ∧
    Subscriptions.cancel st gw sid u = (st, .error Err.subscriptionNotFound) ∧
    Subscriptions.viewSubscription st2 sid u = (st2, .error Err.subscriptionNotFound) ∧
    Subscriptions.cancel st2 gw sid u = (st2, .error Err.subscriptionNotFound) := by
  refine ⟨?_, ?_, ?_, ?_⟩ <;>
    simp [Subscriptions.viewSubscription, Subscriptions.cancel,
      Subscriptions.subscriptionOwned, h1, h2, h3]

/-- Witness for C7: `subA` belongs to discord id disc1; `userB` (disc2) is
rejected with SubscriptionNotFound, as is the lookup in a store with no
subscriptions at all. -/
theorem ownership_mismatch_indistinguishable_from_missing_witness :
    subsFind stA.subs "sub1" = some subA ∧
    subA.user.discordId ≠ userB.discord.id ∧
    subsFind ([] : List Subscription) "sub1" = none ∧
    (Subscriptions.viewSubscription stA "sub1" userB
        = (stA, .error Err.subscriptionNotFound) ∧
     Subscriptions.cancel stA (.ok ()) "sub1" userB
        = (stA, .error Err.subscriptionNotFound) ∧
     Subscriptions.viewSubscription ⟨[planA], [], [], [], [], []⟩ "sub1" userB
        = (⟨[planA], [], [], [], [], []⟩, .error Err.subscriptionNotFound) ∧
     Subscriptions.cancel ⟨[planA], [], [], [], [], []⟩ (.ok ()) "sub1" userB
        = (⟨[planA], [], [], [], [], []⟩, .error Err.subscriptionNotFound)) :=
  ⟨rfl, by decide, rfl,
   ownership_mismatch_indistinguishable_from_missing stA ⟨[planA], [], [], [], [], []⟩
     "sub1" userB subA (.ok ()) rfl (by decide) rfl⟩

/-- C8: `Order.pay tx` throws InvalidState exactly when no payment is bound
(and, being pure, leaves the order unchanged on that error); otherwise it
returns the order with `payment.transactionId = tx` and status PAID, with
`id`, `created`, `reference`, `customMessage` and in particular `redeemedAt`
untouched. -/
theorem order_pay_invalid_state_iff_no_payment (o : Order) (tx : String) :
    (o.payment = none →
      Order.pay o tx
        = .error (Err.invalidState "paying an order which was not intended to be payed, yet")) ∧
    (∀ pm, o.payment = some pm →
      Order.pay o tx
        = .ok (Order.mk o.id o.created o.reference o.customMessage o.redeemedAt
            OrderStatus.PAID (some (OrderPayment.mk pm.id (some tx) pm.provider)))) := by
  constructor
  · intro h
    simp [Order.pay, h]
  · intro pm h
    simp [Order.pay, h]

/-- Witness for C8 at both branches: paying a deferred (payment-less) order
fails with the InvalidState error, and paying a payment-bound order stamps
the transaction id and flips the status to PAID without touching
`redeemedAt`. -/
theorem order_pay_invalid_state_iff_no_payment_witness :
    (Order.createDeferred "o1" 5 ⟨none, "disc1", pkgA⟩ none).payment = none ∧
    Order.pay (Order.createDeferred "o1" 5 ⟨none, "disc1", pkgA⟩ none) "TX1"
      = .error (Err.invalidState "paying an order which was not intended to be payed, yet") ∧
    Order.pay (Order.create "o2" 5 ⟨some "AG1", none, some "paypal"⟩ ⟨none, "disc1", pkgA⟩ none) "TX1"
      = .ok (Order.mk "o2" 5 ⟨none, "disc1", pkgA⟩ none none OrderStatus.PAID
          (some ⟨some "AG1", some "TX1", some "paypal"⟩)) :=
  ⟨rfl,
   (order_pay_invalid_state_iff_no_payment
     (Order.createDeferred "o1" 5 ⟨none, "disc1", pkgA⟩ none) "TX1").1 rfl,
   (order_pay_invalid_state_iff_no_payment
     (Order.create "o2" 5 ⟨some "AG1", none, some "paypal"⟩ ⟨none, "disc1", pkgA⟩ none) "TX1").2
     ⟨some "AG1", none, some "paypal"⟩ rfl⟩

/-- C9: `persistSubscription P` followed by `persistSubscription P result`
yields a SubscriptionPlan with the same logical `id` as `result` (the first
call returns a truthy provider plan id); more generally, whenever the
existing plan carries a non-empty provider plan id, a repeated upsert
preserves the logical id. -/
theorem persist_subscription_id_stable
    (env1 env2 : PaypalEnv) (p : Package) (h : env1.createdPlanId ≠ "") :
    (PaypalPayment.persistSubscription env2 p
        (some (PaypalPayment.persistSubscription env1 p none))).id
      = (PaypalPayment.persistSubscription env1 p none).id ∧
    (∀ sp : SubscriptionPlan, sp.payment.planId ≠ "" → ∀ env,
      (PaypalPayment.persistSubscription env p (some sp)).id = sp.id) := by
  constructor
  · simp [PaypalPayment.persistSubscription, SubscriptionPlan.create, h]
  · intro sp hsp env
    simp [PaypalPayment.persistSubscription, hsp]

/-- Witness for C9 at concrete provider responses. -/
theorem persist_subscription_id_stable_witness :
    (⟨"pplan-created", "uuid-1"⟩ : PaypalEnv).createdPlanId ≠ "" ∧
    (PaypalPayment.persistSubscription ⟨"pplan-other", "uuid-2"⟩ pkgA
        (some (PaypalPayment.persistSubscription ⟨"pplan-created", "uuid-1"⟩ pkgA none))).id
      = (PaypalPayment.persistSubscription ⟨"pplan-created", "uuid-1"⟩ pkgA none).id ∧
    (PaypalPayment.persistSubscription ⟨"pplan-other", "uuid-2"⟩ pkgA (some planA)).id = planA.id :=
  ⟨by decide,
   (persist_subscription_id_stable ⟨"pplan-created", "uuid-1"⟩ ⟨"pplan-other", "uuid-2"⟩ pkgA
     (by decide)).1,
   (persist_subscription_id_stable ⟨"pplan-created", "uuid-1"⟩ ⟨"pplan-other", "uuid-2"⟩ pkgA
     (by decide)).2 planA (by decide) ⟨"pplan-other", "uuid-2"⟩⟩

/-- C10: `Reference.asString` yields `<discordId>#<packageId>` whenever the
steam id is falsy — absent (`null`) or the empty string — and
`<steamId>#<packageId>` for every non-empty steam id.  (`asString` is a
function of the three fields, so determinism is immediate.) -/
theorem reference_as_string_falsy_fallback (d : String) (pk : Package) :
    Reference.asString ⟨none, d, pk⟩ = d ++ "#" ++ pk.id ∧
    Reference.asString ⟨some "", d, pk⟩ = d ++ "#" ++ pk.id ∧
    (∀ s : String, s ≠ "" → Reference.asString ⟨some s, d, pk⟩ = s ++ "#" ++ pk.id) := by
  refine ⟨rfl, rfl, fun s hs => ?_⟩
  simp [Reference.asString, hs]

/-- Witness for C10 with discord id disc1 and steam id steam1. -/
theorem reference_as_string_falsy_fallback_witness :
    Reference.asString ⟨none, "disc1", pkgA⟩ = "disc1" ++ "#" ++ pkgA.id ∧
    Reference.asString ⟨some "", "disc1", pkgA⟩ = "disc1" ++ "#" ++ pkgA.id ∧
    Reference.asString ⟨some "steam1", "disc1", pkgA⟩ = "steam1" ++ "#" ++ pkgA.id :=
  ⟨(reference_as_string_falsy_fallback "disc1" pkgA).1,
   (reference_as_string_falsy_fallback "disc1" pkgA).2.1,
   (reference_as_string_falsy_fallback "disc1" pkgA).2.2 "steam1" (by decide)⟩
